import Mathlib

/-
Verification of the rodbus FFI bridge (rodbus-ffi/src/lib.rs).

The file shallowly embeds the data model and the boundary functions of the
FFI layer: the `Status` enumeration, the `Result` value, the error
translator (`From<&ErrorKind> for Result` and
`From<std::result::Result<T, Error>> for Result`), the runtime and channel
lifecycle functions, the session builder and the array marshaller.

External collaborators (the tokio runtime builder, the C string / socket
address parsers, the rodbus protocol engine) are modelled by passing their
outcomes as explicit inputs, so that every control path of the FFI code
itself is represented faithfully.  Side effects (allocations, spawned
tasks, deallocations, panics) are made explicit in the return types.
-/

namespace Rodbus

/-- Status returned during synchronous and asynchronous API calls.
Mirrors the `#[repr(u8)] pub enum Status` of the source, with its ten
variants in source order. -/
inductive Status where
  | Ok
  | Shutdown
  | NoConnection
  | ResponseTimeout
  | BadRequest
  | BadResponse
  | IOError
  | BadFraming
  | Exception
  | InternalError
  deriving DecidableEq, Fintype, Repr

/-- Mirrors `#[repr(C)] pub struct Result { status, exception: u8 }`.
The exception byte is a `Nat` that the code only ever sets to `0` or to a
value `< 256` produced by `ExceptionCode.to_u8`. -/
structure Result where
  status : Status
  exception : Nat
  deriving DecidableEq, Repr

/-- Mirrors `Result::exception(exception: u8)`: status `Exception`
carrying the given byte.  (Named `ofException` because `exception` is the
field projection.) -/
def Result.ofException (exception : Nat) : Result :=
  { status := Status.Exception, exception := exception }

/-- Mirrors `Result::status(status)`: the given status with exception
byte `0`.  (Named `ofStatus` because `status` is the field projection.) -/
def Result.ofStatus (status : Status) : Result :=
  { status := status, exception := 0 }

/-- Mirrors `Result::ok()`. -/
def Result.ok : Result :=
  { status := Status.Ok, exception := 0 }

/-- Modelled from the spec: `rodbus::error::details::ExceptionCode` is not
under src/ (only the FFI layer is); the spec's §4.4 only needs that the
server's protocol exception is carried as a byte, exposed by `to_u8`. -/
structure ExceptionCode where
  byte : Nat
  deriving DecidableEq, Repr

/-- Modelled from the spec: the `to_u8` conversion of the exception code;
it returns a machine byte, hence the reduction modulo 256. -/
def ExceptionCode.to_u8 (e : ExceptionCode) : Nat :=
  e.byte % 256

/-- Modelled from the spec: `rodbus::error::ErrorKind` is not under src/.
Its nine named variants are exactly the ones matched by the FFI translator
(`Bug`, `NoConnection`, `BadFrame`, `Shutdown`, `ResponseTimeout`,
`BadRequest`, `Exception`, `Io`, `BadResponse`); the extra `Unknown`
constructor models the spec's "unknown/future internal conditions", which
the source handles through its wildcard `_` match arm.  Opaque payloads
(`details::*`, `std::io::Error`) are modelled as `Nat`. -/
inductive ErrorKind where
  | Bug (details : Nat)
  | NoConnection
  | BadFrame (details : Nat)
  | Shutdown
  | ResponseTimeout
  | BadRequest (details : Nat)
  | Exception (code : ExceptionCode)
  | Io (err : Nat)
  | BadResponse (details : Nat)
  | Unknown (details : Nat)
  deriving DecidableEq, Repr

/-- Mirrors `impl From<&ErrorKind> for Result`: the error translator.
The final wildcard arm of the source (`_ => Result::status(InternalError)`)
is the final wildcard arm here, covering the modelled `Unknown` variant. -/
def result_of_error_kind (err : ErrorKind) : Result :=
  match err with
  | ErrorKind.Bug _ => Result.ofStatus Status.InternalError
  | ErrorKind.NoConnection => Result.ofStatus Status.NoConnection
  | ErrorKind.BadFrame _ => Result.ofStatus Status.BadFraming
  | ErrorKind.Shutdown => Result.ofStatus Status.Shutdown
  | ErrorKind.ResponseTimeout => Result.ofStatus Status.ResponseTimeout
  | ErrorKind.BadRequest _ => Result.ofStatus Status.BadRequest
  | ErrorKind.Exception ex => Result.ofException ex.to_u8
  | ErrorKind.Io _ => Result.ofStatus Status.IOError
  | ErrorKind.BadResponse _ => Result.ofStatus Status.BadResponse
  | _ => Result.ofStatus Status.InternalError

/-- Modelled from the spec: `rodbus::error::Error` is not under src/; the
FFI layer only uses its `kind()` accessor, so it is modelled as a wrapper
around its kind. -/
structure Error where
  kind : ErrorKind
  deriving DecidableEq, Repr

/-- Mirrors `impl<T> From<std::result::Result<T, rodbus::error::Error>>
for Result`: success becomes `Result::ok()`, failure delegates to the
error-kind translator. -/
def result_of_outcome {T : Type} (result : Except Error T) : Result :=
  match result with
  | Except.ok _ => Result.ok
  | Except.error e => result_of_error_kind e.kind

/-- The tokio runtime object, opaque to the FFI layer; the only
configuration the two creation functions choose is the scheduler
(`threaded_scheduler()` vs `basic_scheduler()`). -/
structure Runtime where
  multiThreaded : Bool
  deriving DecidableEq, Repr

/-- Opaque outcome of `runtime::Builder::build()` failing (a
`std::io::Error`), external to this layer. -/
abbrev BuildErr := Nat

/-- Effects of a runtime-creation call: the returned handle (null is
`none`; a non-null handle owns the boxed runtime) and how many heap
objects the call left allocated. -/
structure CreateRtEffect where
  handle : Option Runtime
  allocations : Nat
  deriving DecidableEq, Repr

/-- Mirrors `create_multithreaded_runtime`: builds a work-stealing
(multi-threaded) runtime; `Box::into_raw(Box::new(r))` on success,
`null_mut()` on builder failure.  The builder's outcome is the external
input `build`. -/
def create_multithreaded_runtime (build : Except BuildErr Unit) : CreateRtEffect :=
  match build with
  | Except.ok _ => { handle := some { multiThreaded := true }, allocations := 1 }
  | Except.error _ => { handle := none, allocations := 0 }

/-- Mirrors `create_basic_runtime`: builds a single-threaded runtime;
`Box::into_raw(Box::new(r))` on success, `null_mut()` on builder
failure. -/
def create_basic_runtime (build : Except BuildErr Unit) : CreateRtEffect :=
  match build with
  | Except.ok _ => { handle := some { multiThreaded := false }, allocations := 1 }
  | Except.error _ => { handle := none, allocations := 0 }

/-- Effects of a destroy call: how many heap objects were freed and
whether the call faulted. -/
structure DestroyEffect where
  deallocations : Nat
  faulted : Bool
  deriving DecidableEq, Repr

/-- Mirrors `destroy_runtime`: `if !runtime.is_null() { Box::from_raw(runtime); }`.
A null pointer is `none`; a non-null pointer owns a runtime. -/
def destroy_runtime (runtime : Option Runtime) : DestroyEffect :=
  match runtime with
  | none => { deallocations := 0, faulted := false }
  | some _ => { deallocations := 1, faulted := false }

/-- A socket address as produced by the external `SocketAddr::from_str`
collaborator; opaque to this layer. -/
structure SocketAddr where
  val : Nat
  deriving DecidableEq, Repr

/-- A channel handle, as produced by the external
`Channel::create_handle_and_task` collaborator from the parsed address and
the queue bound. -/
structure Channel where
  addr : SocketAddr
  max_queued_requests : Nat
  deriving DecidableEq, Repr

/-- Mirrors `destroy_tcp_client`: `if !client.is_null() { Box::from_raw(client); }`. -/
def destroy_tcp_client (client : Option Channel) : DestroyEffect :=
  match client with
  | none => { deallocations := 0, faulted := false }
  | some _ => { deallocations := 1, faulted := false }

/-- Mirrors `#[repr(C)] pub struct Session`: a plain value of two raw
pointers (null modelled as `none`), a unit id and a timeout. -/
structure Session where
  runtime : Option Runtime
  channel : Option Channel
  unit_id : Nat
  timeout_ms : Nat
  deriving DecidableEq, Repr

/-- Mirrors `build_session`: a pure record constructor, no allocation, no
I/O, no failure path. -/
def build_session (runtime : Option Runtime) (channel : Option Channel)
    (unit_id : Nat) (timeout_ms : Nat) : Session :=
  { runtime := runtime, channel := channel, unit_id := unit_id, timeout_ms := timeout_ms }

/-- Outcome of the two external parse stages applied to the foreign
address text in `create_tcp_client`: `CStr::to_str` can fail (the bytes
are not UTF-8), then `SocketAddr::from_str` can fail; otherwise a socket
address is produced. -/
inductive AddrParse where
  | notUtf8
  | notSocketAddr
  | ok (addr : SocketAddr)
  deriving DecidableEq, Repr

/-- Effects of a `create_tcp_client` call that returned: the channel
handle (null is `none`), the number of tasks spawned on the runtime, and
the number of heap objects left allocated. -/
structure TcpCreateEffect where
  handle : Option Channel
  tasksSpawned : Nat
  allocations : Nat
  deriving DecidableEq, Repr

/-- A call across the FFI boundary either panics or returns a value. -/
inductive FfiOutcome (α : Type) where
  | panicked
  | returned (value : α)
  deriving DecidableEq, Repr

/-- Mirrors `create_tcp_client`.  The first statement is
`runtime.as_mut().unwrap()`, which panics when the pointer is null
(`runtimeIsNull = true`), before the address text is even examined.  Then
the two parse stages: either failure returns `null_mut()` with no task
spawned and nothing allocated; on success the external
`Channel::create_handle_and_task` builds the handle/task pair, the task is
spawned on the runtime, and the boxed handle is returned. -/
def create_tcp_client (runtimeIsNull : Bool) (address : AddrParse)
    (max_queued_requests : Nat) : FfiOutcome TcpCreateEffect :=
  match runtimeIsNull with
  | true => FfiOutcome.panicked
  | false =>
    match address with
    | AddrParse.notUtf8 =>
        FfiOutcome.returned { handle := none, tasksSpawned := 0, allocations := 0 }
    | AddrParse.notSocketAddr =>
        FfiOutcome.returned { handle := none, tasksSpawned := 0, allocations := 0 }
    | AddrParse.ok addr =>
        FfiOutcome.returned
          { handle := some { addr := addr, max_queued_requests := max_queued_requests },
            tasksSpawned := 1, allocations := 1 }

/-- Mirrors `rodbus::types::WriteMultiple`: a starting address and an
owned sequence of values (`WriteMultiple::new(start, vec)`). -/
structure WriteMultiple (α : Type) where
  start : Nat
  values : List α
  deriving DecidableEq, Repr

/-- Mirrors `to_write_multiple`: a foreign buffer is a function from index
to element (`*values.add(i)`); the loop `for i in 0..count` pushes the
elements in order into a fresh vector. -/
def to_write_multiple {α : Type} (start : Nat) (values : Nat → α)
    (count : Nat) : WriteMultiple α :=
  { start := start,
    values := (List.range count).foldl (fun vec i => vec.concat (values i)) [] }

/-! ## Theorems -/

/-- C1: The error translator is a total mapping from internal error
conditions to statuses matching the spec's table exactly: `Bug` maps to
`InternalError`, `NoConnection` to `NoConnection`, `BadFrame` to
`BadFraming`, `Shutdown` to `Shutdown`, `ResponseTimeout` to
`ResponseTimeout`, `BadRequest` to `BadRequest`, `Exception` to the
`Exception` status carrying the server's exception byte, `Io` to
`IOError`, `BadResponse` to `BadResponse`, and a successful operation to
`Ok`; being a total Lean function it maps every internal error to exactly
one status, and the unknown/future condition (the modelled `Unknown`
variant, handled by the source's wildcard arm) maps to `InternalError`
rather than panicking. -/
theorem error_translator_matches_table (d : Nat) (ex : ExceptionCode) :
    result_of_error_kind (ErrorKind.Bug d) = Result.ofStatus Status.InternalError
    ∧ result_of_error_kind ErrorKind.NoConnection = Result.ofStatus Status.NoConnection
    ∧ result_of_error_kind (ErrorKind.BadFrame d) = Result.ofStatus Status.BadFraming
    ∧ result_of_error_kind ErrorKind.Shutdown = Result.ofStatus Status.Shutdown
    ∧ result_of_error_kind ErrorKind.ResponseTimeout = Result.ofStatus Status.ResponseTimeout
    ∧ result_of_error_kind (ErrorKind.BadRequest d) = Result.ofStatus Status.BadRequest
    ∧ result_of_error_kind (ErrorKind.Exception ex) = Result.ofException ex.to_u8
    ∧ result_of_error_kind (ErrorKind.Io d) = Result.ofStatus Status.IOError
    ∧ result_of_error_kind (ErrorKind.BadResponse d) = Result.ofStatus Status.BadResponse
    ∧ result_of_error_kind (ErrorKind.Unknown d) = Result.ofStatus Status.InternalError
    ∧ (∀ v : Nat, result_of_outcome (Except.ok v : Except Error Nat) = Result.ok) :=
  ⟨rfl, rfl, rfl, rfl, rfl, rfl, rfl, rfl, rfl, rfl, fun _ => rfl⟩

/-- C2: For every result produced by the error translator, the exception
byte is meaningful only under the `Exception` status: whenever the status
is anything other than `Exception`, the byte is `0`; when the status is
`Exception` the source error was a server protocol exception and the byte
equals its code; and a successful operation yields status `Ok` with
byte `0`. -/
theorem exception_byte_meaningful_only_under_exception (e : ErrorKind) :
    ((result_of_error_kind e).status ≠ Status.Exception →
      (result_of_error_kind e).exception = 0)
    ∧ ((result_of_error_kind e).status = Status.Exception →
      ∃ ex : ExceptionCode, e = ErrorKind.Exception ex
        ∧ (result_of_error_kind e).exception = ex.to_u8)
    ∧ (∀ v : Nat,
      (result_of_outcome (Except.ok v : Except Error Nat)).status = Status.Ok
      ∧ (result_of_outcome (Except.ok v : Except Error Nat)).exception = 0) := by
  refine ⟨?_, ?_, fun _ => ⟨rfl, rfl⟩⟩
  · cases e <;> intro h <;> first | rfl | exact absurd rfl h
  · cases e <;> intro h <;>
      first
      | exact ⟨_, rfl, rfl⟩
      | exact absurd h (by simp [result_of_error_kind, Result.ofStatus])

/-- Witness for C2 at concrete inputs: a non-exception error
(`Shutdown`) carries byte `0`, and the server exception with code `3`
carries byte `3`. -/
theorem exception_byte_meaningful_only_under_exception_witness :
    (result_of_error_kind ErrorKind.Shutdown).exception = 0
    ∧ ∃ ex : ExceptionCode,
        ErrorKind.Exception (ExceptionCode.mk 3) = ErrorKind.Exception ex
        ∧ (result_of_error_kind (ErrorKind.Exception (ExceptionCode.mk 3))).exception
            = ex.to_u8 :=
  ⟨(exception_byte_meaningful_only_under_exception ErrorKind.Shutdown).1 (by decide),
   (exception_byte_meaningful_only_under_exception
      (ErrorKind.Exception (ExceptionCode.mk 3))).2.1 rfl⟩

/-- C6: Destroying a null engine handle or a null channel handle is a
no-op: `destroy_runtime(null)` and `destroy_tcp_client(null)` free
nothing and never fault. -/
theorem destroy_null_handle_is_noop :
    destroy_runtime none = { deallocations := 0, faulted := false }
    ∧ destroy_tcp_client none = { deallocations := 0, faulted := false } :=
  ⟨rfl, rfl⟩

/-- C7 counterexample: the claim says the status type has exactly nine
enumerants; the `Status` enum of the source has ten variants, so its
cardinality is not nine. -/
theorem status_card_is_not_nine : Fintype.card Status ≠ 9 := by
  decide

/-- C7 (amended): the result's status field takes values from exactly
ten fixed enumerants — `Ok`, `Shutdown`, `NoConnection`,
`ResponseTimeout`, `BadRequest`, `BadResponse`, `IOError`, `BadFraming`,
`Exception`, `InternalError` — the status type has no other variants and
exactly that many. -/
theorem status_has_exactly_ten_variants :
    Fintype.card Status = 10
    ∧ ∀ s : Status,
        s = Status.Ok ∨ s = Status.Shutdown ∨ s = Status.NoConnection
        ∨ s = Status.ResponseTimeout ∨ s = Status.BadRequest
        ∨ s = Status.BadResponse ∨ s = Status.IOError ∨ s = Status.BadFraming
        ∨ s = Status.Exception ∨ s = Status.InternalError := by
  exact ⟨by decide, by intro s; cases s <;> simp⟩

/-- C3: For every input address text that does not parse as a valid
socket endpoint — UTF-8 decoding failure or socket-address parse failure —
channel creation on a non-null runtime returns a null handle immediately,
spawns no background task on the engine, and performs no allocation.
(The non-null runtime precondition is the function's documented safety
contract; claim C10 records that a null runtime panics instead.) -/
theorem create_tcp_client_parse_failure_no_side_effects
    (p : AddrParse) (mq : Nat)
    (h : p = AddrParse.notUtf8 ∨ p = AddrParse.notSocketAddr) :
    create_tcp_client false p mq =
      FfiOutcome.returned { handle := none, tasksSpawned := 0, allocations := 0 } := by
  rcases h with h | h <;> subst h <;> rfl

/-- Witness for C3: a concrete malformed address (socket-address parse
failure) with queue depth 16. -/
theorem create_tcp_client_parse_failure_no_side_effects_witness :
    create_tcp_client false AddrParse.notSocketAddr 16 =
      FfiOutcome.returned { handle := none, tasksSpawned := 0, allocations := 0 } :=
  create_tcp_client_parse_failure_no_side_effects AddrParse.notSocketAddr 16 (Or.inr rfl)

/-- The push loop of the array marshaller: folding `concat` over a list
appends the mapped elements in order. -/
theorem foldl_concat_eq_append_map {α β : Type} (f : α → β) :
    ∀ (l : List α) (acc : List β),
      l.foldl (fun vec i => vec.concat (f i)) acc = acc ++ l.map f := by
  intro l
  induction l with
  | nil => intro acc; simp
  | cons x xs ih =>
      intro acc
      rw [List.foldl_cons, ih]
      simp

/-- The values produced by the array marshaller are exactly the first
`count` buffer elements in source order. -/
theorem to_write_multiple_values_eq_range_map {α : Type} (start : Nat)
    (values : Nat → α) (count : Nat) :
    (to_write_multiple start values count).values = (List.range count).map values := by
  show (List.range count).foldl (fun vec i => vec.concat (values i)) [] = _
  rw [foldl_concat_eq_append_map]
  simp

/-- C4: For every starting address, foreign buffer, and element count, the
array marshaller copies exactly `count` elements sequentially, preserving
source order: the payload keeps the starting address, has exactly `count`
values, the `i`-th value is `buffer[i]` for every `i < count`; for
`start = 10`, `buffer = [1,2,3,4]`, `count = 4` the payload is
`{start := 10, values := [1,2,3,4]}`; and for `count = 0` the payload is
empty and independent of the buffer contents (the buffer is never
dereferenced). -/
theorem to_write_multiple_copies_count_in_order {α : Type} (start : Nat)
    (values : Nat → α) (count : Nat) :
    (to_write_multiple start values count).start = start
    ∧ (to_write_multiple start values count).values.length = count
    ∧ (∀ i : Nat, i < count →
        (to_write_multiple start values count).values[i]? = some (values i))
    ∧ (∀ other : Nat → α,
        to_write_multiple start other 0 = { start := start, values := [] })
    ∧ to_write_multiple 10 (fun i => [1, 2, 3, 4].getD i 0) 4 =
        { start := 10, values := [1, 2, 3, 4] } := by
  refine ⟨rfl, ?_, ?_, fun other => rfl, by decide⟩
  · simp [to_write_multiple_values_eq_range_map]
  · intro i hi
    simp [to_write_multiple_values_eq_range_map, List.getElem?_map,
      List.getElem?_range hi]

/-- Witness for C4 at concrete inputs: marshalling 4 elements of the
buffer `i ↦ i + 20` reads element 2 as 22. -/
theorem to_write_multiple_copies_count_in_order_witness :
    (to_write_multiple 7 (fun i => i + 20) 4).values[2]? = some 22 :=
  (to_write_multiple_copies_count_in_order 7 (fun i => i + 20) 4).2.2.1 2 (by decide)

/-- C5: The session builder is a pure total function (no I/O, no failure
path in its type) and round-trips: reading the fields of the built session
yields exactly the engine pointer, channel pointer, unit id, and timeout
passed in; in particular `build(engine, channel, 5, 1000)` yields the
fields `(engine, channel, 5, 1000)`. -/
theorem build_session_round_trip (r : Option Runtime) (c : Option Channel)
    (u t : Nat) :
    (build_session r c u t).runtime = r
    ∧ (build_session r c u t).channel = c
    ∧ (build_session r c u t).unit_id = u
    ∧ (build_session r c u t).timeout_ms = t
    ∧ build_session r c 5 1000 =
        { runtime := r, channel := c, unit_id := 5, timeout_ms := 1000 } :=
  ⟨rfl, rfl, rfl, rfl, rfl⟩

/-- C8: Each engine-creation function either returns a handle owning a
fully constructed runtime of the requested scheduler kind (leaving exactly
that one allocation), or returns null on builder failure with nothing
allocated — no other outcome is possible. -/
theorem runtime_creation_handle_or_null (b b' : Except BuildErr Unit) :
    (create_multithreaded_runtime b =
        { handle := some { multiThreaded := true }, allocations := 1 }
      ∨ create_multithreaded_runtime b = { handle := none, allocations := 0 })
    ∧ (create_basic_runtime b' =
        { handle := some { multiThreaded := false }, allocations := 1 }
      ∨ create_basic_runtime b' = { handle := none, allocations := 0 }) := by
  constructor
  · cases b with
    | ok v => exact Or.inl rfl
    | error e => exact Or.inr rfl
  · cases b' with
    | ok v => exact Or.inl rfl
    | error e => exact Or.inr rfl

/-- C10 (implicit): `create_tcp_client` dereferences the runtime pointer
(`runtime.as_mut().unwrap()`) before examining the address text, so with a
null runtime it panics for every address input rather than returning a
null handle; and the null-handle zero-effect return is reachable only with
a non-null runtime and a failing address parse. -/
theorem create_tcp_client_null_runtime_panics (p : AddrParse) (mq : Nat) :
    create_tcp_client true p mq = FfiOutcome.panicked
    ∧ (∀ rn : Bool,
        create_tcp_client rn p mq =
          FfiOutcome.returned { handle := none, tasksSpawned := 0, allocations := 0 } →
        rn = false ∧ (p = AddrParse.notUtf8 ∨ p = AddrParse.notSocketAddr)) := by
  refine ⟨rfl, ?_⟩
  intro rn h
  cases rn with
  | true => exact absurd h (by simp [create_tcp_client])
  | false =>
      cases p with
      | notUtf8 => exact ⟨rfl, Or.inl rfl⟩
      | notSocketAddr => exact ⟨rfl, Or.inr rfl⟩
      | ok addr => exact absurd h (by simp [create_tcp_client])

/-- Witness for C10 at concrete inputs: with a null runtime the call on a
non-UTF-8 address panics; and the concrete null-handle return at a
non-null runtime indeed certifies the failing parse. -/
theorem create_tcp_client_null_runtime_panics_witness :
    create_tcp_client true AddrParse.notUtf8 16 = FfiOutcome.panicked
    ∧ (false = false
      ∧ (AddrParse.notUtf8 = AddrParse.notUtf8
        ∨ AddrParse.notUtf8 = AddrParse.notSocketAddr)) :=
  ⟨(create_tcp_client_null_runtime_panics AddrParse.notUtf8 16).1,
   (create_tcp_client_null_runtime_panics AddrParse.notUtf8 16).2 false rfl⟩

end Rodbus
